import Mathlib

/-!
Shallow embedding of the `thorium` Win32/HID/GL binding layer, together with
proofs about the behavior of its buffer protocols, handle wrappers, error
mapping and per-device capability cache.

Machine integers are modelled as `Nat`/`Int`; native calls are modelled by
oracle structures carrying the values the native side returns or writes, so
each wrapped function becomes a pure Lean function of its Rust inputs and the
oracle.  A Rust panic is modelled as `none` in an outer `Option` layer where a
function has a reachable panic site.
-/

namespace Thorium

/-- `ErrorCode(pub DWORD)` from `errhandlingapi.rs`: a plain Win32 error code. -/
structure ErrorCode where
  code : Nat
deriving DecidableEq, Repr

/-- `ErrorCode::NOT_ENOUGH_MEMORY = ErrorCode(0x8)`. -/
def ErrorCode.NOT_ENOUGH_MEMORY : ErrorCode := ⟨0x8⟩

/-- `ErrorCode::INVALID_DATA = ErrorCode(0xD)`. -/
def ErrorCode.INVALID_DATA : ErrorCode := ⟨0xD⟩

/-- `core::panic::Location`: file, line and column of a tracked call site. -/
structure Location where
  file : String
  line : Nat
  column : Nat
deriving DecidableEq, Repr

/-- `LocatedErrorCode` from `errhandlingapi.rs`: an [ErrorCode] bundled with
the [Location] where it occurred. -/
structure LocatedErrorCode where
  location : Location
  err_code : ErrorCode
deriving DecidableEq, Repr

/-- `HANDLE(pub isize)` from `win_types.rs`. -/
structure HANDLE where
  val : Int
deriving DecidableEq, Repr

/-- `HANDLE::null()`. -/
def HANDLE.null : HANDLE := ⟨0⟩

/-- A Rust `char`: a Unicode scalar value (not a surrogate, below `0x110000`).
`Nat.isValidChar` is exactly the Rust `char` validity condition. -/
def RChar : Type := { n : Nat // Nat.isValidChar n }

instance : DecidableEq RChar := Subtype.instDecidableEq

/-- `char::REPLACEMENT_CHARACTER` (`U+FFFD`), produced by lossy UTF-16
decoding in place of each unpaired surrogate. -/
def REPLACEMENT_CHARACTER : RChar := ⟨0xFFFD, by decide⟩

/-- One step of `str::encode_utf16`: the UTF-16 code units of a single
character, one unit below `0x10000` and a surrogate pair otherwise. -/
def encodeUtf16Char (c : RChar) : List Nat :=
  if c.val < 0x10000 then [c.val]
  else
    [0xD800 + (c.val - 0x10000) / 0x400, 0xDC00 + (c.val - 0x10000) % 0x400]

/-- `str::encode_utf16`: the concatenated UTF-16 code units of a string,
viewed as a list of characters. -/
def encodeUtf16 (s : List RChar) : List Nat :=
  s.foldr (fun c acc => encodeUtf16Char c ++ acc) []

/-- Worker for `char::decode_utf16(..).map(|r| r.unwrap_or(REPLACEMENT))`.
The first argument is the decoder's buffered high surrogate (the Rust
iterator keeps at most one pending unit).  Each `Err` from the Rust decoder
becomes a [REPLACEMENT_CHARACTER] here.  The validity side conditions are
discharged with explicit decidable checks; for genuine `u16` input the
fallback branches guarded by them are unreachable. -/
def decodeUtf16Aux (pending : Option Nat) : List Nat → List RChar
  | [] =>
    match pending with
    | none => []
    | some _ => [REPLACEMENT_CHARACTER]
  | u :: rest =>
    match pending with
    | none =>
      if 0xD800 ≤ u ∧ u < 0xDC00 then decodeUtf16Aux (some u) rest
      else if 0xDC00 ≤ u ∧ u < 0xE000 then
        REPLACEMENT_CHARACTER :: decodeUtf16Aux none rest
      else if h : Nat.isValidChar u then
        (⟨u, h⟩ : RChar) :: decodeUtf16Aux none rest
      else REPLACEMENT_CHARACTER :: decodeUtf16Aux none rest
    | some hi =>
      if 0xDC00 ≤ u ∧ u < 0xE000 then
        if h : Nat.isValidChar (0x10000 + (hi - 0xD800) * 0x400 + (u - 0xDC00))
        then (⟨0x10000 + (hi - 0xD800) * 0x400 + (u - 0xDC00), h⟩ : RChar) ::
          decodeUtf16Aux none rest
        else REPLACEMENT_CHARACTER :: decodeUtf16Aux none rest
      else if 0xD800 ≤ u ∧ u < 0xDC00 then
        REPLACEMENT_CHARACTER :: decodeUtf16Aux (some u) rest
      else if h : Nat.isValidChar u then
        REPLACEMENT_CHARACTER :: (⟨u, h⟩ : RChar) :: decodeUtf16Aux none rest
      else
        REPLACEMENT_CHARACTER :: REPLACEMENT_CHARACTER ::
          decodeUtf16Aux none rest

/-- Lossy UTF-16 decoding, as used throughout the repository:
`decode_utf16(units).map(|r| r.unwrap_or(REPLACEMENT_CHARACTER))`. -/
def decodeUtf16 (units : List Nat) : List RChar :=
  decodeUtf16Aux none units

/-- `ZWString(Vec<u16>)` from `win_types.rs`: a zero-terminated wide string. -/
structure ZWString where
  units : List Nat
deriving DecidableEq, Repr

/-- `impl From<&str> for ZWString`:
`value.encode_utf16().chain(Some(0_u16)).collect()`. -/
def ZWString.fromStr (value : List RChar) : ZWString :=
  ⟨encodeUtf16 value ++ [0]⟩

/-- `ZWString::chars`: lossy UTF-16 decoding of
`&self.0[..(self.0.len() - 1)]`, the units before the zero terminator. -/
def ZWString.chars (self : ZWString) : List RChar :=
  decodeUtf16 (self.units.take (self.units.length - 1))

/-- `GlobalBuffer` from `win_types.rs`: a zero-initialized byte allocation. -/
structure GlobalBuffer where
  bytes : List Nat
deriving DecidableEq, Repr

/-- `GlobalBuffer::new(byte_count)`: `alloc_zeroed` for `byte_count` bytes;
`NonNull::new` turns a null result (allocation failure, modelled by the
oracle flag `alloc_zeroed_ok`) into `None`.  On success the buffer is the
requested number of zero bytes. -/
def GlobalBuffer.new (byte_count : Nat) (alloc_zeroed_ok : Bool) :
    Option GlobalBuffer :=
  if alloc_zeroed_ok then some ⟨List.replicate byte_count 0⟩ else none

/-- `HidpStatus(NTSTATUS)` from `hidpi.rs`: a HID parsing status code. -/
structure HidpStatus where
  status : Int
deriving DecidableEq, Repr

/-- `HidpStatus::SUCCESS = HidpStatus(1_114_112)`. -/
def HidpStatus.SUCCESS : HidpStatus := ⟨1114112⟩

/-- `HidpStatus::BUFFER_TOO_SMALL = HidpStatus(-1_072_627_705)`. -/
def HidpStatus.BUFFER_TOO_SMALL : HidpStatus := ⟨-1072627705⟩

/-- `HidpStatus::INVALID_PREPARSED_DATA = HidpStatus(-1_072_627_711)`. -/
def HidpStatus.INVALID_PREPARSED_DATA : HidpStatus := ⟨-1072627711⟩

/-- `HidUsagePage(pub USAGE)` from `hidpi.rs`. -/
structure HidUsagePage where
  page : Nat
deriving DecidableEq, Repr

/-- The raw `USHORT` words of the untagged union `CapsRangeNotRange`: both
variants are eight 16-bit fields reinterpreting the same storage. -/
structure CapsRangeNotRange where
  w0 : Nat
  w1 : Nat
  w2 : Nat
  w3 : Nat
  w4 : Nat
  w5 : Nat
  w6 : Nat
  w7 : Nat
deriving DecidableEq, Repr

/-- `HIDP_BUTTON_CAPS` mirror `HidpButtonCaps` from `hidpi.rs` (the `BOOLEAN`
fields are bytes, the `reserved` array is nine `ULONG`s). -/
structure HidpButtonCaps where
  usage_page : HidUsagePage
  report_id : Nat
  is_alias : Nat
  bit_field : Nat
  link_collection : Nat
  link_usage : Nat
  link_usage_page : Nat
  is_range : Nat
  is_string_range : Nat
  is_designator_range : Nat
  is_absolute : Nat
  report_count : Nat
  reserved2 : Nat
  reserved : List Nat
  u : CapsRangeNotRange
deriving DecidableEq, Repr

/-- `HIDP_VALUE_CAPS` mirror `HidpValueCaps` from `hidpi.rs`. -/
structure HidpValueCaps where
  usage_page : HidUsagePage
  report_id : Nat
  is_alias : Nat
  bit_field : Nat
  link_collection : Nat
  link_usage : Nat
  link_usage_page : Nat
  is_range : Nat
  is_string_range : Nat
  is_designator_range : Nat
  is_absolute : Nat
  has_null : Nat
  reserved : Nat
  bit_size : Nat
  report_count : Nat
  reserved2 : List Nat
  units_exp : Nat
  units : Nat
  logical_min : Int
  logical_max : Int
  physical_min : Int
  physical_max : Int
  u : CapsRangeNotRange
deriving DecidableEq, Repr

/-- Oracle for one `HidP_GetButtonCaps` / `HidP_GetValueCaps` call: the
status it returns, the count it stores through the length pointer, and the
contents of the caller's buffer after the call (the native side writes the
buffer in place, so `written` has the buffer's length). -/
structure HidpCapsCallResult (α : Type) where
  status : HidpStatus
  caps_length : Nat
  written : List α
deriving DecidableEq, Repr

/-- `hidp_get_button_caps` from `hidpi.rs`.  The outer `Option` is the panic
layer: `buf.len().try_into().unwrap()` panics for a buffer longer than
`USHORT::MAX`, and `&buf[..len]` panics when the native call reports a length
larger than the buffer.  On `SUCCESS` the function returns the first
`caps_length` elements of the (now written) buffer; otherwise it returns the
status as the error. -/
def hidp_get_button_caps (buf : List HidpButtonCaps)
    (native : HidpCapsCallResult HidpButtonCaps) :
    Option (Except HidpStatus (List HidpButtonCaps)) :=
  if buf.length ≤ 65535 then
    if native.status = HidpStatus.SUCCESS then
      if native.caps_length ≤ buf.length then
        some (Except.ok (native.written.take native.caps_length))
      else none
    else some (Except.error native.status)
  else none

/-- `hidp_get_value_caps` from `hidpi.rs`; control flow identical to
[hidp_get_button_caps] with `HidpValueCaps` elements. -/
def hidp_get_value_caps (buf : List HidpValueCaps)
    (native : HidpCapsCallResult HidpValueCaps) :
    Option (Except HidpStatus (List HidpValueCaps)) :=
  if buf.length ≤ 65535 then
    if native.status = HidpStatus.SUCCESS then
      if native.caps_length ≤ buf.length then
        some (Except.ok (native.written.take native.caps_length))
      else none
    else some (Except.error native.status)
  else none

/-- The native calls and allocations a two-call-protocol function performs,
in order, used to state which steps run on each path. -/
inductive WinuserCall where
  | getDeviceInfoSizeQuery
  | globalAlloc (byte_count : Nat)
  | getDeviceInfoFill
  | getDeviceNameSizeQuery
  | vecAlloc (unit_count : Nat)
  | getDeviceNameFill
deriving DecidableEq, Repr

/-- `RawInputDevicePreparsedData(pub(crate) GlobalBuffer)` from
`winuser.rs`. -/
structure RawInputDevicePreparsedData where
  buffer : GlobalBuffer
deriving DecidableEq, Repr

/-- Oracle for `RawInputDevicePreparsedData::try_new`: the return value and
reported size of the step-1 `GetRawInputDeviceInfoW` size query, whether the
zeroed allocation succeeds, the return value of the step-3 fill call, and the
thread-local `GetLastError` value read at a failure point. -/
structure PreparsedOracle where
  size_query_ret : Nat
  size_reported : Nat
  alloc_ok : Bool
  fill_ret : Nat
  last_error : ErrorCode
deriving DecidableEq, Repr

/-- `RawInputDevicePreparsedData::try_new` from `winuser.rs`, paired with the
trace of native calls it makes.  Step 1 queries the required size (non-zero
return means failure: the error propagates and nothing else runs); step 2
allocates a zeroed `GlobalBuffer` (failure yields `NOT_ENOUGH_MEMORY`);
step 3 fills the buffer, and a byte count different from the buffer length is
reported via `get_last_error_here()` like any other native failure.  The
filled blob is opaque, so the success value keeps the allocated buffer. -/
def RawInputDevicePreparsedData.try_new (o : PreparsedOracle)
    (here : Location) :
    Except LocatedErrorCode RawInputDevicePreparsedData × List WinuserCall :=
  if o.size_query_ret ≠ 0 then
    (Except.error ⟨here, o.last_error⟩, [WinuserCall.getDeviceInfoSizeQuery])
  else
    match GlobalBuffer.new o.size_reported o.alloc_ok with
    | none =>
      (Except.error ⟨here, ErrorCode.NOT_ENOUGH_MEMORY⟩,
        [WinuserCall.getDeviceInfoSizeQuery,
          WinuserCall.globalAlloc o.size_reported])
    | some buf =>
      if o.fill_ret ≠ buf.bytes.length then
        (Except.error ⟨here, o.last_error⟩,
          [WinuserCall.getDeviceInfoSizeQuery,
            WinuserCall.globalAlloc o.size_reported,
            WinuserCall.getDeviceInfoFill])
      else
        (Except.ok ⟨buf⟩,
          [WinuserCall.getDeviceInfoSizeQuery,
            WinuserCall.globalAlloc o.size_reported,
            WinuserCall.getDeviceInfoFill])

/-- Oracle for `get_raw_input_device_name`: step-1 return value and reported
character count, the fill call's return value (`u32::MAX` means failure), the
UTF-16 units the fill call writes, the character count it reports back, and
the `GetLastError` value at failure points. -/
structure DeviceNameOracle where
  size_query_ret : Nat
  char_count_reported : Nat
  fill_ret : Nat
  fill_units : List Nat
  char_count_after : Nat
  last_error : ErrorCode
deriving DecidableEq, Repr

/-- `get_raw_input_device_name` from `winuser.rs`, paired with its native
call trace.  A non-zero step-1 return propagates the error before any
allocation or fill; a fill return of `u32::MAX` is a native failure; on
success the vector keeps `char_count - 1` units (dropping the terminator,
with saturating subtraction) and is decoded by `string_from_utf16` (defined
in the crate root, which is not under `src/`; modelled as the same lossy
UTF-16 decode the repository uses everywhere else). -/
def get_raw_input_device_name (o : DeviceNameOracle) (here : Location) :
    Except LocatedErrorCode (List RChar) × List WinuserCall :=
  if o.size_query_ret ≠ 0 then
    (Except.error ⟨here, o.last_error⟩, [WinuserCall.getDeviceNameSizeQuery])
  else if o.fill_ret = 4294967295 then
    (Except.error ⟨here, o.last_error⟩,
      [WinuserCall.getDeviceNameSizeQuery,
        WinuserCall.vecAlloc o.char_count_reported,
        WinuserCall.getDeviceNameFill])
  else
    (Except.ok (decodeUtf16 (o.fill_units.take (o.char_count_after - 1))),
      [WinuserCall.getDeviceNameSizeQuery,
        WinuserCall.vecAlloc o.char_count_reported,
        WinuserCall.getDeviceNameFill])

/-- Oracle for one `FormatMessageW` call in allocate-buffer mode: the
returned character count (excluding the terminator), whether the pointer the
system wrote back is null, the UTF-16 units of the system-allocated buffer,
and the `GetLastError` value at the failure point. -/
structure FormatMessageOracle where
  w_chars : Nat
  buffer_is_null : Bool
  written_units : List Nat
  last_error : ErrorCode
deriving DecidableEq, Repr

/-- `ErrorCode::format_system_error` from `winbase.rs`: `Err` exactly when
the native call reports zero characters or leaves the buffer pointer null;
otherwise the result is the `w_chars`-unit slice of the system buffer. -/
def ErrorCode.format_system_error (self : ErrorCode)
    (o : FormatMessageOracle) (here : Location) :
    Except LocatedErrorCode (List Nat) :=
  if o.w_chars = 0 ∨ o.buffer_is_null = true then
    Except.error ⟨here, o.last_error⟩
  else Except.ok (o.written_units.take o.w_chars)

/-- One hexadecimal digit, uppercase, as in Rust's `{:08X}` formatting. -/
def hexDigit (n : Nat) : Char :=
  if n < 10 then Char.ofNat (48 + n) else Char.ofNat (55 + n)

/-- Eight-wide uppercase hexadecimal rendering of a `u32` value, the
`{:08X}` format used by `impl Display for ErrorCode`. -/
def toHex8 (n : Nat) : String :=
  String.mk (((List.range 8).reverse).map (fun i => hexDigit (n / 16 ^ i % 16)))

/-- `impl Display for ErrorCode`: `write!(f, "0x{:08X}", self.0)`. -/
def ErrorCode.displayFmt (self : ErrorCode) : String :=
  "0x" ++ toHex8 self.code

/-- The trailing-`\r`/`\n` popping loop of `impl Debug for LocatedErrorCode`:
`while err_msg.ends_with(&['\r', '\n']) { err_msg.pop(); }`. -/
def popTrailingCrLf (msg : List RChar) : List RChar :=
  ((msg.reverse).dropWhile (fun c => c.val == 13 || c.val == 10)).reverse

/-- Render a decoded message as text (each `RChar` is a valid scalar value,
so `Char.ofNat` is exact). -/
def rcharString (msg : List RChar) : String :=
  String.mk (msg.map (fun c => Char.ofNat c.val))

/-- `impl Debug for LocatedErrorCode` from `errhandlingapi.rs`: formats
`[file:line:column](code): message`, where the message comes from
[ErrorCode.format_system_error] with `unwrap_or(&[])` — a formatting failure
falls back to the empty unit slice — then lossy UTF-16 decoding and trailing
newline trimming.  Total: no panic site on any path. -/
def LocatedErrorCode.debugFmt (self : LocatedErrorCode)
    (o : FormatMessageOracle) : String :=
  let u16_slice : List Nat :=
    match self.err_code.format_system_error o self.location with
    | Except.ok units => units
    | Except.error _ => []
  let err_msg : List RChar := popTrailingCrLf (decodeUtf16 u16_slice)
  "[" ++ self.location.file ++ ":" ++ toString self.location.line ++ ":" ++
    toString self.location.column ++ "](" ++ self.err_code.displayFmt ++
    "): " ++ rcharString err_msg

/-- `size_of::<RAWINPUTHEADER>()` on the 64-bit target the bindings address:
`ty` and `size` are 4-byte `DWORD`s, `device` and `w_param` are 8 bytes. -/
def RAWINPUTHEADER_SIZE : Nat := 24

/-- Little-endian read of `count` bytes at offset `off` (reads through a
pointer cast in the source; callers establish the bytes exist). -/
def readLE (bytes : List Nat) (off : Nat) (count : Nat) : Nat :=
  (List.range count).foldr (fun i acc => acc * 256 + bytes.getD (off + i) 0) 0

/-- Two's-complement reinterpretation of a 64-bit unsigned value as `isize`,
for the `device: HANDLE` field. -/
def toSigned64 (n : Nat) : Int :=
  if n < 2 ^ 63 then (n : Int) else (n : Int) - 2 ^ 64

/-- `RawInputData([u8])` from `winuser.rs`: a raw-input payload viewed as
bytes. -/
def RawInputData : Type := List Nat

/-- The byte list underlying a [RawInputData] view. -/
def RawInputData.buf (self : RawInputData) : List Nat := self

/-- `RawInputData::handle`: the header's `device` field, or `HANDLE::null()`
when the buffer is shorter than the header. -/
def RawInputData.handle (self : RawInputData) : HANDLE :=
  if self.buf.length < RAWINPUTHEADER_SIZE then HANDLE.null
  else ⟨toSigned64 (readLE self.buf 8 8)⟩

/-- `RawInputData::input_type`: the header's `ty` field, or
`RawInputType(u32::MAX)` when the buffer is shorter than the header.
`RawInputType::HID` is `2`. -/
def RawInputData.input_type (self : RawInputData) : Nat :=
  if self.buf.length < RAWINPUTHEADER_SIZE then 4294967295
  else readLE self.buf 0 4

/-- `RawInputData::hid_size_hid`.  Outer `Option` is the panic layer: the
source indexes `data_buffer[0..4]`, which panics when the type is HID but
fewer than 4 bytes follow the header.  Inner `Option` is the Rust return:
`None` when the input type is not HID (or, dead in practice, when the buffer
is shorter than the header). -/
def RawInputData.hid_size_hid (self : RawInputData) : Option (Option Nat) :=
  if RawInputData.input_type self ≠ 2 then some none
  else if RAWINPUTHEADER_SIZE ≤ self.buf.length then
    if 4 ≤ (self.buf.drop RAWINPUTHEADER_SIZE).length then
      some (some (readLE (self.buf.drop RAWINPUTHEADER_SIZE) 0 4))
    else none
  else some none

/-- `RawInputData::hid_count`; as [RawInputData.hid_size_hid] but the source
indexes `data_buffer[4..8]`, panicking when the type is HID and fewer than 8
bytes follow the header. -/
def RawInputData.hid_count (self : RawInputData) : Option (Option Nat) :=
  if RawInputData.input_type self ≠ 2 then some none
  else if RAWINPUTHEADER_SIZE ≤ self.buf.length then
    if 8 ≤ (self.buf.drop RAWINPUTHEADER_SIZE).length then
      some (some (readLE (self.buf.drop RAWINPUTHEADER_SIZE) 4 4))
    else none
  else some none

/-- `RawInputData::hid_raw_data`: the bytes after the two leading `DWORD`s of
the HID data area; `None` when the type is not HID or fewer than 8 bytes
follow the header.  This accessor checks its bound, so it has no panic
layer. -/
def RawInputData.hid_raw_data (self : RawInputData) : Option (List Nat) :=
  if RawInputData.input_type self ≠ 2 then none
  else if RAWINPUTHEADER_SIZE ≤ self.buf.length then
    if 8 ≤ (self.buf.drop RAWINPUTHEADER_SIZE).length then
      some ((self.buf.drop RAWINPUTHEADER_SIZE).drop 8)
    else none
  else none

/-- The `CAP_DATABASE` thread-local of `bin/main.rs`: a
`HashMap<HANDLE, HidInfo>`, modelled as an association list observed only
through [CapDatabase.lookup].  The value type stays abstract: the claims
never inspect a `HidInfo`. -/
def CapDatabase (α : Type) : Type := List (HANDLE × α)

/-- `HashMap::get(&handle)`: the value stored for a handle, if any. -/
def CapDatabase.lookup {α : Type} (db : CapDatabase α) (handle : HANDLE) :
    Option α :=
  (db.find? (fun e => e.1 = handle)).map Prod.snd

/-- `HashMap::insert(handle, info)`: replaces any entry for the handle. -/
def CapDatabase.insert {α : Type} (db : CapDatabase α) (handle : HANDLE)
    (info : α) : CapDatabase α :=
  (handle, info) :: db.filter (fun e => ¬ e.1 = handle)

/-- `HashMap::remove(&handle)`: drops the entry for the handle. -/
def CapDatabase.remove {α : Type} (db : CapDatabase α) (handle : HANDLE) :
    CapDatabase α :=
  db.filter (fun e => ¬ e.1 = handle)

/-- The `WinMessage::INPUT_DEVICE_CHANGE` arm of `win_proc` in
`bin/main.rs`, as a transition on the capability cache.  `w_param` `1` means
attach (`added = true`), `2` means detach, and any other value is logged and
treated as detach (`added = false`); the handle is `HANDLE(l_param)`.  On
attach, `attach` is the combined outcome of
`RawInputDevicePreparsedData::try_new` and `HidInfo::try_new`: `some` info is
inserted, an error only logs and leaves the cache unchanged.  On detach the
entry is removed before the arm returns. -/
def win_proc_input_device_change {α : Type} (db : CapDatabase α)
    (w_param : Nat) (l_param : Int) (attach : Option α) : CapDatabase α :=
  let added : Bool := if w_param = 1 then true else false
  let handle : HANDLE := ⟨l_param⟩
  if added then
    match attach with
    | some info => db.insert handle info
    | none => db
  else db.remove handle

/-- Outcome of `parse_raw_input` in `bin/main.rs`, abstracting the decode
stage: `panicked` for a reachable `.unwrap()` or indexing panic,
`skippedMultiReport` for the early `return` on multi-report payloads,
`deviceUnknown` for the silent return when the cache has no entry, and
`decoded` recording that button/value decoding ran with the given report and
cached capability data. -/
inductive ParseOutcome (α : Type) where
  | panicked
  | skippedMultiReport
  | deviceUnknown
  | decoded (handle : HANDLE) (report : List Nat) (caps : α)
deriving DecidableEq, Repr

/-- `parse_raw_input` from `bin/main.rs`: reads the device handle, then
`data.hid_count().unwrap()` (panicking on a non-HID payload), returns early
when the report count exceeds 1, takes `data.hid_raw_data().unwrap()` as the
report, looks the handle up in the cache (silently returning when absent)
and otherwise decodes buttons and values from the report using the cached
capability data. -/
def parse_raw_input {α : Type} (data : RawInputData) (db : CapDatabase α) :
    ParseOutcome α :=
  let handle := RawInputData.handle data
  match RawInputData.hid_count data with
  | none => ParseOutcome.panicked
  | some none => ParseOutcome.panicked
  | some (some count) =>
    if count > 1 then ParseOutcome.skippedMultiReport
    else
      match RawInputData.hid_raw_data data with
      | none => ParseOutcome.panicked
      | some report =>
        match db.lookup handle with
        | none => ParseOutcome.deviceUnknown
        | some hid => ParseOutcome.decoded handle report hid

/-- A native GL release call observable during a wrapper's drop. -/
inductive GlReleaseCall where
  | deleteShader (id : Nat)
  | deleteProgram (id : Nat)
  | deleteTextures (id : Nat)
deriving DecidableEq, Repr

/-- `Shader(pub(crate) u32)` from `shader.rs`. -/
structure Shader where
  id : Nat
deriving DecidableEq, Repr

/-- `Shader::new(ty)`: wraps whatever `glCreateShader` returned — the zero
sentinel included; there is no failure path. -/
def Shader.new (glCreateShaderRet : Nat) : Shader := ⟨glCreateShaderRet⟩

/-- `impl Drop for Shader`: unconditionally calls `glDeleteShader(self.0)`. -/
def Shader.dropCalls (self : Shader) : List GlReleaseCall :=
  [GlReleaseCall.deleteShader self.id]

/-- `Program(u32)` from `program.rs`. -/
structure Program where
  id : Nat
deriving DecidableEq, Repr

/-- `Program::new()`: wraps whatever `glCreateProgram` returned — the zero
sentinel included; there is no failure path. -/
def Program.new (glCreateProgramRet : Nat) : Program := ⟨glCreateProgramRet⟩

/-- `impl Drop for Program`: unconditionally calls
`glDeleteProgram(self.0)`. -/
def Program.dropCalls (self : Program) : List GlReleaseCall :=
  [GlReleaseCall.deleteProgram self.id]

/-- `Texture(u32)` from `texture.rs`. -/
structure Texture where
  id : Nat
deriving DecidableEq, Repr

/-- `Texture::new()`: `glGenTextures(1, &mut vao)` writes one name (the
initial `0` remains if the driver writes nothing); the result is wrapped
without any check. -/
def Texture.new (glGenTexturesOut : Nat) : Texture := ⟨glGenTexturesOut⟩

/-- `impl Drop for Texture`: calls `glDeleteTextures(1, &self.0)` only when
the stored name is non-zero. -/
def Texture.dropCalls (self : Texture) : List GlReleaseCall :=
  if self.id ≠ 0 then [GlReleaseCall.deleteTextures self.id] else []

/-- C10: for every requested size `n`, when `GlobalBuffer::new(n)` returns
`Some` buffer, that buffer's length is exactly `n` and every byte in it is
zero. -/
theorem global_buffer_new_zeroed (n : Nat) (ok : Bool) (buf : GlobalBuffer)
    (h : GlobalBuffer.new n ok = some buf) :
    buf.bytes.length = n ∧ ∀ b ∈ buf.bytes, b = 0 := by
  unfold GlobalBuffer.new at h
  by_cases hok : ok = true
  · simp [hok] at h
    subst h
    constructor
    · simp
    · intro b hb
      exact List.eq_of_mem_replicate hb
  · simp [hok] at h

/-- Witness for [global_buffer_new_zeroed] at `n = 4`. -/
theorem global_buffer_new_zeroed_witness :
    (GlobalBuffer.new 4 true = some ⟨[0, 0, 0, 0]⟩) ∧
      ((⟨[0, 0, 0, 0]⟩ : GlobalBuffer).bytes.length = 4 ∧
        ∀ b ∈ (⟨[0, 0, 0, 0]⟩ : GlobalBuffer).bytes, b = 0) :=
  ⟨by decide, global_buffer_new_zeroed 4 true ⟨[0, 0, 0, 0]⟩ (by decide)⟩

/-- C4: after the `win_proc` INPUT_DEVICE_CHANGE arm processes a detach
notification (`w_param = 2`) for a handle, looking that handle up in the
capability cache yields `none`, whatever the cache held before. -/
theorem cap_database_detach_lookup_none {α : Type} (db : CapDatabase α)
    (l_param : Int) (attach : Option α) :
    CapDatabase.lookup (win_proc_input_device_change db 2 l_param attach)
      ⟨l_param⟩ = none := by
  show CapDatabase.lookup (CapDatabase.remove db ⟨l_param⟩) ⟨l_param⟩ = none
  unfold CapDatabase.lookup
  rw [Option.map_eq_none', List.find?_eq_none]
  intro a ha
  rw [CapDatabase.remove, List.mem_filter] at ha
  simpa using ha.2

/-- C3 counterexample: `Shader::new` wraps the zero sentinel returned by a
failed `glCreateShader` call without surfacing any error, and dropping that
wrapper performs a `glDeleteShader` release call; `Program::new` behaves the
same way.  This contradicts the claim that construction succeeds only for a
non-sentinel native value and that a failed construction observes zero
release calls. -/
theorem shader_program_new_sentinel_cex :
    Shader.new 0 = ⟨0⟩ ∧
      Shader.dropCalls (Shader.new 0) = [GlReleaseCall.deleteShader 0] ∧
      Program.new 0 = ⟨0⟩ ∧
      Program.dropCalls (Program.new 0) = [GlReleaseCall.deleteProgram 0] := by
  refine ⟨rfl, rfl, rfl, rfl⟩

/-- C3 amended: `Shader::new`, `Program::new` and `Texture::new` never fail
— each wraps whatever value the native creation call produced, zero
included; on drop, `Shader` and `Program` invoke their native delete call
unconditionally (once, even for a zero handle), while `Texture` invokes
`glDeleteTextures` exactly when its stored name is non-zero. -/
theorem gl_wrapper_construction_and_drop (ret : Nat) :
    Shader.new ret = ⟨ret⟩ ∧
      Shader.dropCalls ⟨ret⟩ = [GlReleaseCall.deleteShader ret] ∧
      Program.new ret = ⟨ret⟩ ∧
      Program.dropCalls ⟨ret⟩ = [GlReleaseCall.deleteProgram ret] ∧
      Texture.new ret = ⟨ret⟩ ∧
      Texture.dropCalls ⟨ret⟩ =
        (if ret ≠ 0 then [GlReleaseCall.deleteTextures ret] else []) := by
  refine ⟨rfl, rfl, rfl, rfl, rfl, rfl⟩

/-- C6: for every raw-input payload whose HID report count is greater than
1, `parse_raw_input` returns without decoding any button or value data — the
outcome is the early multi-report skip, for any state of the capability
cache. -/
theorem parse_raw_input_skips_multi_report {α : Type} (data : RawInputData)
    (db : CapDatabase α) (count : Nat)
    (hcount : RawInputData.hid_count data = some (some count))
    (hgt : count > 1) :
    parse_raw_input data db = ParseOutcome.skippedMultiReport := by
  unfold parse_raw_input
  rw [hcount]
  simp [hgt]

/-- Witness for [parse_raw_input_skips_multi_report]: a 32-byte HID payload
(`ty = 2`) whose `count` field is 2. -/
theorem parse_raw_input_skips_multi_report_witness :
    RawInputData.hid_count
        ([2, 0, 0, 0] ++ List.replicate 20 0 ++ [0, 0, 0, 0, 2, 0, 0, 0]) =
      some (some 2) ∧
      parse_raw_input
          (([2, 0, 0, 0] ++ List.replicate 20 0 ++ [0, 0, 0, 0, 2, 0, 0, 0]) :
            RawInputData)
          ([] : CapDatabase Unit) = ParseOutcome.skippedMultiReport :=
  ⟨by decide,
    parse_raw_input_skips_multi_report
      (([2, 0, 0, 0] ++ List.replicate 20 0 ++ [0, 0, 0, 0, 2, 0, 0, 0]) :
        RawInputData)
      ([] : CapDatabase Unit) 2 (by decide) (by decide)⟩

/-- C7: for both two-call buffer operations
(`RawInputDevicePreparsedData::try_new` and `get_raw_input_device_name`), a
native failure at the step-1 size query (non-zero return) is returned
immediately: the native-call trace holds only the size query — no buffer is
allocated and the fill step never runs. -/
theorem two_call_step1_failure_short_circuits (o : PreparsedOracle)
    (o2 : DeviceNameOracle) (here here2 : Location)
    (h : o.size_query_ret ≠ 0) (h2 : o2.size_query_ret ≠ 0) :
    RawInputDevicePreparsedData.try_new o here =
        (Except.error ⟨here, o.last_error⟩,
          [WinuserCall.getDeviceInfoSizeQuery]) ∧
      get_raw_input_device_name o2 here2 =
        (Except.error ⟨here2, o2.last_error⟩,
          [WinuserCall.getDeviceNameSizeQuery]) := by
  constructor
  · unfold RawInputDevicePreparsedData.try_new
    rw [if_pos h]
  · unfold get_raw_input_device_name
    rw [if_pos h2]

/-- Witness for [two_call_step1_failure_short_circuits] with both size
queries returning `u32::MAX`. -/
theorem two_call_step1_failure_short_circuits_witness :
    RawInputDevicePreparsedData.try_new
        ⟨4294967295, 0, true, 0, ⟨5⟩⟩ ⟨"main.rs", 155, 10⟩ =
        (Except.error ⟨⟨"main.rs", 155, 10⟩, ⟨5⟩⟩,
          [WinuserCall.getDeviceInfoSizeQuery]) ∧
      get_raw_input_device_name
          ⟨4294967295, 0, 0, [], 0, ⟨6⟩⟩ ⟨"main.rs", 153, 10⟩ =
        (Except.error ⟨⟨"main.rs", 153, 10⟩, ⟨6⟩⟩,
          [WinuserCall.getDeviceNameSizeQuery]) :=
  two_call_step1_failure_short_circuits
    ⟨4294967295, 0, true, 0, ⟨5⟩⟩ ⟨4294967295, 0, 0, [], 0, ⟨6⟩⟩
    ⟨"main.rs", 155, 10⟩ ⟨"main.rs", 153, 10⟩ (by decide) (by decide)

/-- C2 counterexample: with a successful size query reporting 16 bytes, a
successful allocation, a fill step that reports 8 bytes written (a mismatch)
and a thread-local last error of `ERROR_ACCESS_DENIED` (5),
`RawInputDevicePreparsedData::try_new` returns the code 5 — not
`ErrorCode::INVALID_DATA` — and that error value is identical to the one a
step-1 failure under the same last error produces, so the caller cannot
distinguish the two conditions. -/
theorem try_new_mismatch_not_invalid_data_cex :
    (RawInputDevicePreparsedData.try_new ⟨0, 16, true, 8, ⟨5⟩⟩
          ⟨"main.rs", 155, 10⟩).1 =
        Except.error ⟨⟨"main.rs", 155, 10⟩, ⟨5⟩⟩ ∧
      (⟨5⟩ : ErrorCode) ≠ ErrorCode.INVALID_DATA ∧
      (RawInputDevicePreparsedData.try_new ⟨0, 16, true, 8, ⟨5⟩⟩
            ⟨"main.rs", 155, 10⟩).1 =
        (RawInputDevicePreparsedData.try_new ⟨4294967295, 0, true, 0, ⟨5⟩⟩
            ⟨"main.rs", 155, 10⟩).1 := by
  refine ⟨rfl, by decide, rfl⟩

/-- C2 amended: when the step-1 size query succeeds, allocation succeeds and
the fill step reports a byte count different from the allocated buffer's
length, `try_new` returns `Err` carrying the thread's current `GetLastError`
value (via `get_last_error_here()`), the same form of error a step-1 failure
produces; the defined-but-unused `ErrorCode::INVALID_DATA` is not
involved. -/
theorem try_new_mismatch_returns_last_error (o : PreparsedOracle)
    (here : Location) (h1 : o.size_query_ret = 0) (h2 : o.alloc_ok = true)
    (h3 : o.fill_ret ≠ o.size_reported) :
    (RawInputDevicePreparsedData.try_new o here).1 =
      Except.error ⟨here, o.last_error⟩ := by
  unfold RawInputDevicePreparsedData.try_new GlobalBuffer.new
  have hlen : (List.replicate o.size_reported 0).length = o.size_reported :=
    List.length_replicate _ _
  simp [h1, h2, hlen, h3]

/-- Witness for [try_new_mismatch_returns_last_error] at the counterexample
oracle. -/
theorem try_new_mismatch_returns_last_error_witness :
    (RawInputDevicePreparsedData.try_new ⟨0, 16, true, 8, ⟨5⟩⟩
        ⟨"main.rs", 155, 10⟩).1 =
      Except.error ⟨⟨"main.rs", 155, 10⟩, ⟨5⟩⟩ :=
  try_new_mismatch_returns_last_error ⟨0, 16, true, 8, ⟨5⟩⟩
    ⟨"main.rs", 155, 10⟩ (by decide) (by decide) (by decide)

/-- C5: `format_system_error` is an optionally-failing operation — it
returns `Err` (carrying the located last error) exactly when the native
formatting call reports zero characters or a null buffer — and
`Debug`-formatting a `LocatedErrorCode` is total, falling back to the
defined message-less rendering `[file:line:column](0xXXXXXXXX): ` whenever
no system message is available. -/
theorem format_system_error_and_debug_spec (code : ErrorCode)
    (o : FormatMessageOracle) (here : Location) (lec : LocatedErrorCode) :
    ((∃ e, code.format_system_error o here = Except.error e) ↔
        (o.w_chars = 0 ∨ o.buffer_is_null = true)) ∧
      ((o.w_chars = 0 ∨ o.buffer_is_null = true) →
        lec.debugFmt o =
          "[" ++ lec.location.file ++ ":" ++ toString lec.location.line ++
            ":" ++ toString lec.location.column ++ "](" ++
            lec.err_code.displayFmt ++ "): ") := by
  constructor
  · constructor
    · intro he
      by_contra hcond
      rw [ErrorCode.format_system_error, if_neg hcond] at he
      exact absurd he.choose_spec (by simp)
    · intro hcond
      rw [ErrorCode.format_system_error, if_pos hcond]
      exact ⟨_, rfl⟩
  · intro hcond
    unfold LocatedErrorCode.debugFmt
    rw [ErrorCode.format_system_error, if_pos hcond]
    show _ ++ rcharString (popTrailingCrLf (decodeUtf16 [])) = _
    rw [show rcharString (popTrailingCrLf (decodeUtf16 [])) = "" from rfl]
    exact String.append_empty _

/-- Witness for [format_system_error_and_debug_spec]: an application-defined
error code (bit 29 set) whose formatting fails with zero characters written;
the debug rendering is the message-less fallback. -/
theorem format_system_error_and_debug_spec_witness :
    ((∃ e, ErrorCode.format_system_error ⟨0x20000001⟩ ⟨0, false, [], ⟨317⟩⟩
            ⟨"errhandlingapi.rs", 90, 41⟩ = Except.error e) ↔
        ((0 : Nat) = 0 ∨ false = true)) ∧
      (((0 : Nat) = 0 ∨ false = true) →
        LocatedErrorCode.debugFmt
            ⟨⟨"errhandlingapi.rs", 90, 41⟩, ⟨0x20000001⟩⟩
            ⟨0, false, [], ⟨317⟩⟩ =
          "[" ++ "errhandlingapi.rs" ++ ":" ++ toString (90 : Nat) ++ ":" ++
            toString (41 : Nat) ++ "](" ++
            ErrorCode.displayFmt ⟨0x20000001⟩ ++ "): ") :=
  format_system_error_and_debug_spec ⟨0x20000001⟩ ⟨0, false, [], ⟨317⟩⟩
    ⟨"errhandlingapi.rs", 90, 41⟩ ⟨⟨"errhandlingapi.rs", 90, 41⟩, ⟨0x20000001⟩⟩

/-- A concrete one-button capability record (usage page `BUTTONS`). -/
def sampleButtonCap : HidpButtonCaps :=
  ⟨⟨9⟩, 0, 0, 0, 0, 0, 0, 0, 0, 0, 0, 1, 0, List.replicate 9 0,
    ⟨1, 2, 0, 0, 0, 0, 0, 0⟩⟩

/-- A concrete one-axis value capability record (usage page
`GENERIC_DESKTOP`, usage `0x30`). -/
def sampleValueCap : HidpValueCaps :=
  ⟨⟨1⟩, 0, 0, 0, 0, 48, 1, 0, 0, 0, 1, 0, 0, 8, 1, List.replicate 5 0, 0, 0,
    0, 255, 0, 0, ⟨48, 0, 0, 0, 0, 0, 0, 0⟩⟩

/-- C1: for `hidp_get_button_caps` and `hidp_get_value_caps`, a `SUCCESS`
status (with the reported count within the buffer) yields exactly the first
`caps_length` elements of the caller's buffer as written by the native call
— the returned slice has length `caps_length`, so nothing past that bound is
reachable through it — and any non-`SUCCESS` status yields `Err` carrying
that status. -/
theorem hidp_get_caps_trim_spec (buf : List HidpButtonCaps)
    (nb : HidpCapsCallResult HidpButtonCaps) (bufv : List HidpValueCaps)
    (nv : HidpCapsCallResult HidpValueCaps) (hb1 : buf.length ≤ 65535)
    (hb2 : nb.written.length = buf.length) (hv1 : bufv.length ≤ 65535)
    (hv2 : nv.written.length = bufv.length) :
    ((nb.status = HidpStatus.SUCCESS → nb.caps_length ≤ buf.length →
        hidp_get_button_caps buf nb =
            some (Except.ok (nb.written.take nb.caps_length)) ∧
          (nb.written.take nb.caps_length).length = nb.caps_length) ∧
      (nb.status ≠ HidpStatus.SUCCESS →
        hidp_get_button_caps buf nb = some (Except.error nb.status))) ∧
      ((nv.status = HidpStatus.SUCCESS → nv.caps_length ≤ bufv.length →
          hidp_get_value_caps bufv nv =
              some (Except.ok (nv.written.take nv.caps_length)) ∧
            (nv.written.take nv.caps_length).length = nv.caps_length) ∧
        (nv.status ≠ HidpStatus.SUCCESS →
          hidp_get_value_caps bufv nv = some (Except.error nv.status))) := by
  unfold hidp_get_button_caps hidp_get_value_caps
  refine ⟨⟨fun hs hle => ⟨?_, ?_⟩, fun hs => ?_⟩,
    fun hs hle => ⟨?_, ?_⟩, fun hs => ?_⟩
  · rw [if_pos hb1, if_pos hs, if_pos hle]
  · rw [List.length_take, hb2]
    exact Nat.min_eq_left hle
  · rw [if_pos hb1, if_neg hs]
  · rw [if_pos hv1, if_pos hs, if_pos hle]
  · rw [List.length_take, hv2]
    exact Nat.min_eq_left hle
  · rw [if_pos hv1, if_neg hs]

/-- Witness for [hidp_get_caps_trim_spec]: a one-element button buffer read
back successfully, and a value query failing with `BUFFER_TOO_SMALL`. -/
theorem hidp_get_caps_trim_spec_witness :
    hidp_get_button_caps [sampleButtonCap]
        ⟨HidpStatus.SUCCESS, 1, [sampleButtonCap]⟩ =
      some (Except.ok [sampleButtonCap]) ∧
      hidp_get_value_caps [sampleValueCap]
          ⟨HidpStatus.BUFFER_TOO_SMALL, 1, [sampleValueCap]⟩ =
        some (Except.error HidpStatus.BUFFER_TOO_SMALL) := by
  have h := hidp_get_caps_trim_spec [sampleButtonCap]
    ⟨HidpStatus.SUCCESS, 1, [sampleButtonCap]⟩ [sampleValueCap]
    ⟨HidpStatus.BUFFER_TOO_SMALL, 1, [sampleValueCap]⟩ (by decide) rfl
    (by decide) rfl
  exact ⟨(h.1.1 rfl (by decide)).1, h.2.2 (by decide)⟩

/-- C8 counterexample: a 24-byte buffer that is exactly a raw-input header
with `ty = HID` (2).  `input_type()` correctly reports HID, but
`hid_size_hid()` and `hid_count()` panic (the source indexes
`data_buffer[0..4]` / `data_buffer[4..8]` into an empty data area) instead
of returning `None` — refuting the claim that the accessors are total and
return `None` whenever the buffer is too short for the requested field. -/
theorem hid_accessors_panic_on_short_hid_cex :
    RawInputData.input_type
        (([2, 0, 0, 0] ++ List.replicate 20 0) : RawInputData) = 2 ∧
      RawInputData.hid_size_hid
          (([2, 0, 0, 0] ++ List.replicate 20 0) : RawInputData) = none ∧
      RawInputData.hid_count
          (([2, 0, 0, 0] ++ List.replicate 20 0) : RawInputData) = none := by
  refine ⟨by decide, by decide, by decide⟩

/-- C8 amended: the `RawInputData` accessors behave as claimed except on a
HID payload whose data area is shorter than the indexed field: `handle()`
yields the null handle and `input_type()` yields `u32::MAX` on a buffer
shorter than the header; `hid_size_hid()`, `hid_count()` and
`hid_raw_data()` return `None` on a non-HID type; on a HID payload (which
always has at least the header) `hid_size_hid()` panics when the data area
is shorter than 4 bytes, `hid_count()` panics when it is shorter than 8, and
otherwise both read their little-endian `DWORD`, while `hid_raw_data()`
never panics, returning `None` when the data area is shorter than 8 bytes
and the bytes after the two leading `DWORD`s otherwise. -/
theorem raw_input_data_accessors_spec (data : RawInputData) :
    (data.buf.length < RAWINPUTHEADER_SIZE →
        RawInputData.handle data = HANDLE.null ∧
          RawInputData.input_type data = 4294967295) ∧
      (RawInputData.input_type data ≠ 2 →
        RawInputData.hid_size_hid data = some none ∧
          RawInputData.hid_count data = some none ∧
          RawInputData.hid_raw_data data = none) ∧
      (RawInputData.input_type data = 2 →
        RAWINPUTHEADER_SIZE ≤ data.buf.length ∧
          ((data.buf.drop RAWINPUTHEADER_SIZE).length < 4 →
            RawInputData.hid_size_hid data = none) ∧
          (4 ≤ (data.buf.drop RAWINPUTHEADER_SIZE).length →
            RawInputData.hid_size_hid data =
              some (some (readLE (data.buf.drop RAWINPUTHEADER_SIZE) 0 4))) ∧
          ((data.buf.drop RAWINPUTHEADER_SIZE).length < 8 →
            RawInputData.hid_count data = none ∧
              RawInputData.hid_raw_data data = none) ∧
          (8 ≤ (data.buf.drop RAWINPUTHEADER_SIZE).length →
            RawInputData.hid_count data =
                some (some (readLE (data.buf.drop RAWINPUTHEADER_SIZE) 4 4)) ∧
              RawInputData.hid_raw_data data =
                some ((data.buf.drop RAWINPUTHEADER_SIZE).drop 8))) := by
  refine ⟨fun hshort => ⟨?_, ?_⟩, fun hty => ⟨?_, ?_, ?_⟩, fun hty => ?_⟩
  · rw [RawInputData.handle, if_pos hshort]
  · rw [RawInputData.input_type, if_pos hshort]
  · rw [RawInputData.hid_size_hid, if_pos hty]
  · rw [RawInputData.hid_count, if_pos hty]
  · rw [RawInputData.hid_raw_data, if_pos hty]
  · have hlen : RAWINPUTHEADER_SIZE ≤ data.buf.length := by
      by_contra hcon
      rw [RawInputData.input_type,
        if_pos (Nat.lt_of_not_le hcon)] at hty
      exact absurd hty (by decide)
    have hty2 : ¬ RawInputData.input_type data ≠ 2 := fun hc => hc hty
    refine ⟨hlen, fun h4 => ?_, fun h4 => ?_, fun h8 => ⟨?_, ?_⟩,
      fun h8 => ⟨?_, ?_⟩⟩
    · rw [RawInputData.hid_size_hid, if_neg hty2, if_pos hlen,
        if_neg (Nat.not_le_of_lt h4)]
    · rw [RawInputData.hid_size_hid, if_neg hty2, if_pos hlen, if_pos h4]
    · rw [RawInputData.hid_count, if_neg hty2, if_pos hlen,
        if_neg (Nat.not_le_of_lt h8)]
    · rw [RawInputData.hid_raw_data, if_neg hty2, if_pos hlen,
        if_neg (Nat.not_le_of_lt h8)]
    · rw [RawInputData.hid_count, if_neg hty2, if_pos hlen, if_pos h8]
    · rw [RawInputData.hid_raw_data, if_neg hty2, if_pos hlen, if_pos h8]

/-- Witness for [raw_input_data_accessors_spec]: a short non-header buffer,
a keyboard-typed buffer, and a well-formed one-byte HID report payload. -/
theorem raw_input_data_accessors_spec_witness :
    RawInputData.handle (([9, 9, 9] : List Nat) : RawInputData) =
        HANDLE.null ∧
      RawInputData.hid_size_hid
          (([1, 0, 0, 0] ++ List.replicate 28 0) : RawInputData) =
        some none ∧
      RawInputData.hid_count
          (([2, 0, 0, 0] ++ List.replicate 20 0 ++
              [1, 0, 0, 0, 1, 0, 0, 0, 77]) : RawInputData) =
        some (some 1) ∧
      RawInputData.hid_raw_data
          (([2, 0, 0, 0] ++ List.replicate 20 0 ++
              [1, 0, 0, 0, 1, 0, 0, 0, 77]) : RawInputData) =
        some [77] := by
  have h1 := (raw_input_data_accessors_spec
    (([9, 9, 9] : List Nat) : RawInputData)).1 (by decide)
  have h2 := ((raw_input_data_accessors_spec
    (([1, 0, 0, 0] ++ List.replicate 28 0) : RawInputData)).2.1
    (by decide)).1
  have h3 := ((raw_input_data_accessors_spec
    (([2, 0, 0, 0] ++ List.replicate 20 0 ++
        [1, 0, 0, 0, 1, 0, 0, 0, 77]) : RawInputData)).2.2
    (by decide)).2.2.2.2 (by decide)
  exact ⟨h1.1, h2, by rw [h3.1]; decide, by rw [h3.2]; decide⟩

/-- Decoding consumes the encoding of one character and yields exactly that
character: the single-unit case uses that a scalar value is never a
surrogate, the pair case recombines the surrogates. -/
theorem decodeUtf16Aux_encodeUtf16Char (c : RChar) (rest : List Nat) :
    decodeUtf16Aux none (encodeUtf16Char c ++ rest) =
      c :: decodeUtf16Aux none rest := by
  obtain ⟨v, hv⟩ := c
  have hv2 : v < 0xD800 ∨ (0xDFFF < v ∧ v < 0x110000) := hv
  rw [encodeUtf16Char]
  by_cases h1 : v < 0x10000
  · rw [if_pos h1]
    show decodeUtf16Aux none (v :: rest) = _
    rw [decodeUtf16Aux]
    have hA : ¬(0xD800 ≤ v ∧ v < 0xDC00) := by omega
    have hB : ¬(0xDC00 ≤ v ∧ v < 0xE000) := by omega
    rw [if_neg hA, if_neg hB, dif_pos hv]
  · rw [if_neg h1]
    show decodeUtf16Aux none
      ((0xD800 + (v - 0x10000) / 0x400) ::
        (0xDC00 + (v - 0x10000) % 0x400) :: rest) = _
    have hHi : 0xD800 ≤ 0xD800 + (v - 0x10000) / 0x400 ∧
        0xD800 + (v - 0x10000) / 0x400 < 0xDC00 := by omega
    have hLo : 0xDC00 ≤ 0xDC00 + (v - 0x10000) % 0x400 ∧
        0xDC00 + (v - 0x10000) % 0x400 < 0xE000 := by omega
    rw [decodeUtf16Aux, if_pos hHi, decodeUtf16Aux, if_pos hLo]
    have hcomb : 0x10000 +
        (0xD800 + (v - 0x10000) / 0x400 - 0xD800) * 0x400 +
        (0xDC00 + (v - 0x10000) % 0x400 - 0xDC00) = v := by omega
    have hVal : Nat.isValidChar (0x10000 +
        (0xD800 + (v - 0x10000) / 0x400 - 0xD800) * 0x400 +
        (0xDC00 + (v - 0x10000) % 0x400 - 0xDC00)) := by
      rw [hcomb]
      exact hv
    rw [dif_pos hVal]
    exact congrArg (fun x => x :: decodeUtf16Aux none rest)
      (Subtype.ext hcomb)

/-- Lossy UTF-16 decoding inverts UTF-16 encoding on every list of Unicode
scalar values. -/
theorem decodeUtf16_encodeUtf16 (s : List RChar) :
    decodeUtf16 (encodeUtf16 s) = s := by
  induction s with
  | nil => rfl
  | cons c rest ih =>
    show decodeUtf16Aux none (encodeUtf16Char c ++ encodeUtf16 rest) = _
    rw [decodeUtf16Aux_encodeUtf16Char]
    exact congrArg (c :: ·) ih

/-- C9: for every string `s`, `ZWString::from(s)` stores the UTF-16 encoding
of `s` followed by exactly one trailing zero unit, and `chars()` (the
iteration `Display` prints) reproduces `s` exactly, the terminator
excluded. -/
theorem zwstring_from_round_trip (s : List RChar) :
    (ZWString.fromStr s).units = encodeUtf16 s ++ [0] ∧
      ZWString.chars (ZWString.fromStr s) = s := by
  refine ⟨rfl, ?_⟩
  have hstep : ZWString.chars (ZWString.fromStr s) =
      decodeUtf16 ((encodeUtf16 s ++ [0]).take
        ((encodeUtf16 s ++ [0]).length - 1)) := rfl
  have hlen : (encodeUtf16 s ++ [0]).length - 1 = (encodeUtf16 s).length := by
    rw [List.length_append]
    simp
  rw [hstep, hlen, List.take_left]
  exact decodeUtf16_encodeUtf16 s

end Thorium
